import Mathlib

/-!
Verification of the durable state engine of the `Geogboe/packer` builder
against its specification.

The Go sources are shallowly embedded:

* Go maps (`map[string]string`, `map[string]*Build`) become association
  lists `List (String × α)` whose list order records the (arbitrary)
  storage/iteration order of the Go map; "equal as mappings" is list
  permutation (for duplicate-free key lists) or pointwise `lookupKV`
  agreement.
* A Go map read `m[k]` of a `map[string]string` yields the zero value
  `""` when the key is absent; `goFind` reproduces this.
* Filesystem effects are made explicit: the state file, the temporary
  file and the lock file are fields of small world records, and each
  fallible syscall of a function is resolved by an outcome parameter
  enumerating exactly the failure points of the Go code.
-/

namespace PackerState

/-- Association-list lookup, first binding wins — the embedding of a Go
map read that distinguishes absence (`none`) from presence. -/
def lookupKV {α : Type} : List (String × α) → String → Option α
  | [], _ => none
  | (k, v) :: rest, key => if k = key then some v else lookupKV rest key

/-- A Go read `m[k]` on a `map[string]string`: the zero value `""` is
returned when the key is absent. -/
def goFind (m : List (String × String)) (key : String) : String :=
  (lookupKV m key).getD ""

/-- `Status` (state.go): execution status of a provisioner /
post-processor step. -/
inductive Status where
  | pending
  | running
  | complete
  | failed
  | skipped
deriving DecidableEq, Repr, Inhabited

/-- `BuildStatus` (state.go): overall status of one build. -/
inductive BuildStatus where
  | pending
  | creating
  | provisioning
  | postProcessing
  | complete
  | failed
deriving DecidableEq, Repr, Inhabited

/-- `TemplateState` (state.go): the template and its inputs.  The two
mappings are kept as association lists so that the Go map iteration
order is part of the model. -/
structure TemplateState where
  path : String
  hash : String
  vars : List (String × String)
  files : List (String × String)
deriving DecidableEq, Repr, Inhabited

/-- `ProvisionerState` (state.go): per-step record. -/
structure ProvisionerState where
  ptype : String
  name : String
  status : Status
  error : String
deriving DecidableEq, Repr, Inhabited

/-- `ArtifactState` (state.go): the persisted fields of one artifact
that the wrapper reads back (id, builder id, files). -/
structure ArtifactState where
  id : String
  builderId : String
  files : List String
deriving DecidableEq, Repr, Inhabited

/-- `Instance` (state.go), reduced to the field the wrapper's
`HasInstance` inspects. -/
structure Instance where
  id : String
deriving DecidableEq, Repr, Inhabited

/-- `Build` (state.go): a single build's state. -/
structure Build where
  name : String
  btype : String
  status : BuildStatus
  instanceRec : Option Instance
  provisioners : List ProvisionerState
  artifacts : List ArtifactState
  error : String
deriving DecidableEq, Repr, Inhabited

/-- `State` (state.go): the persisted state document.  `builds` is a Go
map from build name; kept as an association list. -/
structure State where
  version : Nat
  serial : Nat
  lineage : String
  template : TemplateState
  builds : List (String × Build)
deriving DecidableEq, Repr, Inhabited

/-- `State.GetBuild` (state.go): map read on `builds`. -/
def getBuild (s : State) (name : String) : Option Build :=
  lookupKV s.builds name

/-- The byte stream `ComputeFingerprint` (state.go, lines 380-402) feeds
into SHA-256: the template hash, then for each `range` step over the
`Variables` map the key and the value, then likewise over `Files`.  The
Go loops iterate the maps in storage order — despite the comments
"Include sorted variables" / "Include sorted file hashes" no sorting is
performed — so the stream depends on the association-list order.  The
published fingerprint is `"sha256:" ++ hex (sha256 stream)`, the image
of this stream under the fixed SHA-256 function. -/
def fingerprintData (t : TemplateState) : String :=
  t.hash
    ++ (t.vars.foldl (fun acc kv => acc ++ kv.1 ++ kv.2) "")
    ++ (t.files.foldl (fun acc kv => acc ++ kv.1 ++ kv.2) "")

/-- One Go map-comparison loop of `Manager.InputsChanged` (manager.go):
`for k, v := range input { if stored[k] != v { return true } }`.
The stored-map read uses the Go zero value for absent keys. -/
def anyMismatch (stored input : List (String × String)) : Bool :=
  input.any fun kv => goFind stored kv.1 != kv.2

/-- `Manager.InputsChanged` (manager.go, lines 107-138).  `st` is the
manager's `state` field (`none` when no document was loaded).  The
checks run in source order: template hash, vars cardinality,
vars loop, files cardinality, files loop. -/
def inputsChanged (st : Option State) (templateHash : String)
    (vars files : List (String × String)) : Bool :=
  match st with
  | none => true
  | some s =>
    (s.template.hash != templateHash)
      || (s.template.vars.length != vars.length)
      || anyMismatch s.template.vars vars
      || (s.template.files.length != files.length)
      || anyMismatch s.template.files files

/-- `p.Status == StatusPending || p.Status == StatusFailed`
(state.go, `NextPendingProvisioner` loop condition). -/
def isPendingOrFailed (p : ProvisionerState) : Bool :=
  p.status == .pending || p.status == .failed

/-- `Build.NextPendingProvisioner` (state.go, lines 423-430): index of
the first provisioner whose status is `pending` or `failed`, or the
length of the list when there is none. -/
def nextPendingProvisioner : List ProvisionerState → Nat
  | [] => 0
  | p :: rest =>
    if isPendingOrFailed p then 0 else nextPendingProvisioner rest + 1

/-! ### The Store: `Load` and `Save` (state.go) -/

/-- What the file at the state path holds when `Load` opens it.  The
non-well-formed cases enumerate the corruption scenarios the spec and
the stress tests name; for each of them Go's `json.Decoder.Decode`
returns an error.  `wellFormed s` is any content that decodes into a
`State` value — including one whose `version` field is not 1, since
the decoder fills whatever integer appears. -/
inductive FileRead where
  | missing
  | empty
  | truncated
  | nullBytes
  | wellFormed (s : State)
deriving DecidableEq, Repr

/-- Result of the package-level `Load` (state.go, lines 296-313). -/
inductive LoadResult where
  | noState
  | corrupt
  | loaded (s : State)
deriving DecidableEq, Repr

/-- `Load` (state.go, lines 296-313): a missing file yields `(nil, nil)`;
a decode error yields an error; otherwise the decoded document is
returned unconditionally — the function never inspects
`state.Version`. -/
def load : FileRead → LoadResult
  | .missing => .noState
  | .empty => .corrupt
  | .truncated => .corrupt
  | .nullBytes => .corrupt
  | .wellFormed s => .loaded s

/-- Which syscall of `State.Save` fails, if any.  The constructors are
the failure points of state.go lines 316-356 in source order. -/
inductive SaveOutcome where
  | mkdirFail
  | createFail
  | encodeFail
  | closeFail
  | renameFail
  | success
deriving DecidableEq, Repr

/-- The two files `Save` touches: the state file at `path` and the
sibling `path + ".tmp"`.  Contents are modelled by the document they
decode to (`none` = file absent). -/
structure Disk where
  file : Option State
  tmp : Option State
deriving DecidableEq, Repr

/-- Result of one `State.Save` call: the in-memory document afterwards,
the disk afterwards, and whether the call returned `nil`. -/
structure SaveResult where
  st : State
  disk : Disk
  ok : Bool
deriving DecidableEq, Repr

/-- `State.Save` (state.go, lines 316-356).  `s.Serial++` runs first,
before any filesystem operation, so the in-memory serial is incremented
on every call, failed or not.  Then: `MkdirAll` (failure leaves the disk
untouched, no temporary was created yet), `os.Create` of the temporary
(failure creates nothing), encode / close / rename (each failure removes
the temporary with `os.Remove(tmpPath)` and leaves the state file as it
was).  On success the rename installs the encoded document — with the
incremented serial — at `path` and the temporary is gone. -/
def save (s : State) (d : Disk) (o : SaveOutcome) : SaveResult :=
  let s' : State := { s with serial := s.serial + 1 }
  match o with
  | .mkdirFail => ⟨s', d, false⟩
  | .createFail => ⟨s', d, false⟩
  | .encodeFail => ⟨s', { d with tmp := none }, false⟩
  | .closeFail => ⟨s', { d with tmp := none }, false⟩
  | .renameFail => ⟨s', { d with tmp := none }, false⟩
  | .success => ⟨s', { file := some s', tmp := none }, true⟩

/-- `n` consecutive successful `Save` calls on one session. -/
def saveN : State → Disk → Nat → State × Disk
  | s, d, 0 => (s, d)
  | s, d, n + 1 =>
    let r := save s d .success
    saveN r.st r.disk n

/-! ### The Lock (lock.go) -/

/-- `Lock` (lock.go): the identity fields of the lock record. -/
structure LockRec where
  id : String
  op : String
  who : String
deriving DecidableEq, Repr

/-- What the lock file at `statePath + ".lock"` holds. -/
inductive LockFileState where
  | missing
  | unreadable
  | holds (l : LockRec)
deriving DecidableEq, Repr

/-- Errors `LockManager.Unlock` can return (lock.go, lines 107-129). -/
inductive UnlockErr where
  | readFailed
  | stolen
deriving DecidableEq, Repr

/-- Result of `LockManager.Unlock`: error (if any), the lock file
afterwards, and the manager's in-memory `lock` field afterwards. -/
structure UnlockResult where
  err : Option UnlockErr
  lockFile : LockFileState
  held : Option LockRec
deriving DecidableEq, Repr

/-- `LockManager.Unlock` (lock.go, lines 107-129).  With no lock held it
returns `nil` at once.  Otherwise it first calls `readLock`, which
`os.ReadFile`s the lock file: a missing or unparseable file makes
`readLock` fail and `Unlock` return the wrapped read error — the
missing-file tolerance of the later `os.Remove` is never reached.  A
successfully read record whose id differs from the held one yields the
lock-stolen error.  On matching ids the lock file is removed and the
in-memory lock cleared. -/
def unlock (held : Option LockRec) (file : LockFileState) : UnlockResult :=
  match held with
  | none => ⟨none, file, none⟩
  | some mine =>
    match file with
    | .missing => ⟨some .readFailed, .missing, some mine⟩
    | .unreadable => ⟨some .readFailed, .unreadable, some mine⟩
    | .holds cur =>
      if cur.id = mine.id then ⟨none, .missing, none⟩
      else ⟨some .stolen, .holds cur, some mine⟩

/-! ### The Manager session (manager.go) -/

/-- Result of `Manager.Load`: the document handed back (if any), the
lock file afterwards, and the manager's held lock afterwards. -/
structure MgrLoadResult where
  doc : Option State
  lockFile : LockFileState
  held : Option LockRec
deriving DecidableEq, Repr

/-- `Manager.Load` (manager.go, lines 32-52).  `lockManager.Lock` is an
exclusive create: it fails (AlreadyLocked) when the lock file exists and
otherwise writes a fresh record `mine`.  Then the package-level `load`
runs on the state file; on a load error the manager calls
`lockManager.Unlock()` before propagating the error.  A missing state
file synthesizes a fresh document `fresh`. -/
def managerLoad (mine : LockRec) (lockFile : LockFileState)
    (file : FileRead) (fresh : State) : MgrLoadResult :=
  match lockFile with
  | .missing =>
    match load file with
    | .corrupt =>
      let u := unlock (some mine) (.holds mine)
      ⟨none, u.lockFile, u.held⟩
    | .noState => ⟨some fresh, .holds mine, some mine⟩
    | .loaded s => ⟨some s, .holds mine, some mine⟩
  | f => ⟨none, f, none⟩

/-! ### The stateful build wrapper (wrapper/build.go) -/

/-- `Build.IsComplete` (state.go). -/
def isComplete (b : Build) : Bool :=
  b.status == .complete

/-- `CachedArtifact` (wrapper/build.go): the artifact representation
reconstructed from state. -/
structure CachedArtifact where
  id : String
  builderId : String
  files : List String
deriving DecidableEq, Repr

/-- `StatefulBuild.inputsChangedSinceLastBuild` (wrapper/build.go,
lines 153-158): the body is a stub that always returns `false`
("For now, assume inputs haven't changed if we have a complete
build"). -/
def inputsChangedSinceLastBuild : Bool := false

/-- `StatefulBuild.loadArtifactsFromState` (wrapper/build.go,
lines 160-175). -/
def loadArtifactsFromState (b : Build) : List CachedArtifact :=
  b.artifacts.map fun a => ⟨a.id, a.builderId, a.files⟩

/-- How `StatefulBuild.Run` (wrapper/build.go, lines 31-96) dispatches
on entry. -/
inductive RunDecision where
  | noStateError
  | cached (arts : List CachedArtifact)
  | freshOrResume
deriving DecidableEq, Repr

/-- The entry decision of `StatefulBuild.Run` (wrapper/build.go,
lines 31-51): with no loaded state it errors; with an existing build
record whose status is complete it consults
`inputsChangedSinceLastBuild` and, when that reports no change, returns
the cached artifacts reconstructed from the record; every other path
falls through to the resume/fresh flow. -/
def runEntry (st : Option State) (buildName : String) : RunDecision :=
  match st with
  | none => .noStateError
  | some s =>
    match getBuild s buildName with
    | some b =>
      if isComplete b then
        if !inputsChangedSinceLastBuild then .cached (loadArtifactsFromState b)
        else .freshOrResume
      else .freshOrResume
    | none => .freshOrResume

/-! ### Concrete sample values used by witnesses and counterexamples -/

/-- A template record with no variables and no files. -/
def emptyTemplate : TemplateState := ⟨"t.pkr.hcl", "sha256:t", [], []⟩

/-- A freshly synthesized document (`New`, state.go). -/
def freshDoc : State := ⟨1, 1, "lineage-1", emptyTemplate, []⟩

/-- A well-formed document carrying schema version 2. -/
def docV2 : State := ⟨2, 1, "lineage-2", emptyTemplate, []⟩

/-- A document at serial 5 about to be saved. -/
def docSerial5 : State := ⟨1, 5, "lineage-1", emptyTemplate, []⟩

/-- A disk holding a previously saved document and no temporary. -/
def diskPrior : Disk := ⟨some freshDoc, none⟩

/-- A held lock record. -/
def lockA : LockRec := ⟨"lock-id-a", "build", "alice@host"⟩

/-- A different lock record (a thief's). -/
def lockB : LockRec := ⟨"lock-id-b", "build", "bob@host"⟩

/-- Variables map {a ↦ 1, b ↦ 2} in one storage order... -/
def tmplAB : TemplateState := ⟨"t.pkr.hcl", "sha256:h", [("a", "1"), ("b", "2")], []⟩

/-- ...and the same mapping in the other storage order. -/
def tmplBA : TemplateState := ⟨"t.pkr.hcl", "sha256:h", [("b", "2"), ("a", "1")], []⟩

/-- An artifact recorded by a completed build. -/
def artDisk : ArtifactState := ⟨"artifact-1", "null.builder", ["out/disk.img"]⟩

/-- A completed build record holding one artifact. -/
def buildDone : Build := ⟨"b", "null", .complete, none, [], [artDisk], ""⟩

/-- A document whose build "b" completed with variables {v ↦ 1}. -/
def docDone : State :=
  ⟨1, 3, "lineage-1", ⟨"t.pkr.hcl", "sha256:h", [("v", "1")], []⟩, [("b", buildDone)]⟩

/-- A document whose only stored variable carries the empty string. -/
def docEmptyVal : State :=
  ⟨1, 1, "lineage-1", ⟨"t.pkr.hcl", "sha256:h", [("a", "")], []⟩, []⟩

/-- Three steps: complete, failed, pending. -/
def stepsCFP : List ProvisionerState :=
  [⟨"shell", "s0", .complete, ""⟩, ⟨"file", "s1", .failed, "boom"⟩,
   ⟨"shell", "s2", .pending, ""⟩]

/-! ### Helper lemmas -/

theorem lookupKV_eq_some_of_mem {m : List (String × String)} {k v : String}
    (nd : (m.map Prod.fst).Nodup) (hmem : (k, v) ∈ m) :
    lookupKV m k = some v := by
  induction m with
  | nil => cases hmem
  | cons kv rest ih =>
    obtain ⟨k', v'⟩ := kv
    rw [List.map_cons, List.nodup_cons] at nd
    rcases List.mem_cons.mp hmem with hhd | htl
    · have h1 : k = k' := congrArg Prod.fst hhd
      have h2 : v = v' := congrArg Prod.snd hhd
      subst h1
      subst h2
      simp [lookupKV]
    · have hne : k' ≠ k := by
        rintro rfl
        exact nd.1 (List.mem_map.mpr ⟨(k', v), htl, rfl⟩)
      simp only [lookupKV, if_neg hne]
      exact ih nd.2 htl

theorem goFind_eq_of_mem {m : List (String × String)} {k v : String}
    (nd : (m.map Prod.fst).Nodup) (hmem : (k, v) ∈ m) :
    goFind m k = v := by
  simp [goFind, lookupKV_eq_some_of_mem nd hmem]

theorem anyMismatch_eq_false {stored input : List (String × String)}
    (h : ∀ kv ∈ input, goFind stored kv.1 = kv.2) :
    anyMismatch stored input = false := by
  simp only [anyMismatch, List.any_eq_false]
  intro kv hkv
  simp [h kv hkv]

theorem anyMismatch_eq_true {stored input : List (String × String)}
    {k v : String} (hkv : (k, v) ∈ input) (hne : goFind stored k ≠ v) :
    anyMismatch stored input = true := by
  simp only [anyMismatch, List.any_eq_true]
  exact ⟨(k, v), hkv, by simpa using hne⟩

theorem saveN_serial (s : State) (d : Disk) (n : Nat) :
    (saveN s d n).1.serial = s.serial + n := by
  induction n generalizing s d with
  | zero => rfl
  | succ n ih =>
    simp only [saveN]
    rw [ih]
    show s.serial + 1 + n = s.serial + (n + 1)
    omega

/-! ### The claims -/

/-- C10: `InputsChanged` on a Manager with no loaded state document
returns `true` regardless of the hash, variables and files arguments
(manager.go, lines 108-110). -/
theorem inputsChanged_true_when_no_state_loaded (th : String)
    (V F : List (String × String)) :
    inputsChanged none th V F = true := rfl

/-- C4: every successful `Save` increments the document's serial by
exactly one, so a sequence of successful saves makes the serial increase
in steps of one: after `n` successful saves the serial is the initial
serial plus `n`, and each further successful save adds one. -/
theorem save_serial_strictly_increasing (s : State) (d : Disk) (n : Nat) :
    (save s d .success).st.serial = s.serial + 1
    ∧ (saveN s d n).1.serial = s.serial + n
    ∧ (saveN s d (n + 1)).1.serial = (saveN s d n).1.serial + 1 := by
  refine ⟨rfl, saveN_serial s d n, ?_⟩
  rw [saveN_serial, saveN_serial]
  omega

/-- C9: when `Manager.Load` acquires the lock but the state-file load
fails (corrupt content), the manager releases the lock before
propagating the error: no document is returned, the lock file is gone
and no lock is held. -/
theorem managerLoad_releases_lock_on_load_failure (mine : LockRec)
    (file : FileRead) (fresh : State) (hcorrupt : load file = .corrupt) :
    managerLoad mine .missing file fresh = ⟨none, .missing, none⟩ := by
  simp [managerLoad, hcorrupt, unlock]

/-- Witness for C9 at concrete inputs: an empty state file is corrupt,
and the failed open leaves no lock behind. -/
theorem managerLoad_releases_lock_on_load_failure_witness :
    managerLoad lockA .missing .empty freshDoc = ⟨none, .missing, none⟩ :=
  managerLoad_releases_lock_on_load_failure lockA .empty freshDoc rfl

/-- C2 counterexample: a well-formed state document carrying schema
version 2 — a version the reader does not recognize — is loaded
successfully, not rejected as corrupt: `Load` never inspects the
`version` field. -/
theorem load_accepts_unknown_version :
    docV2.version = 2
    ∧ load (.wellFormed docV2) = .loaded docV2
    ∧ load (.wellFormed docV2) ≠ .corrupt := by
  refine ⟨rfl, rfl, ?_⟩
  simp [load]

/-- C2 amended: `Load` fails with the corrupt-state error exactly for
content the JSON decoder rejects (empty content, truncated JSON, null
bytes); a missing file yields no state; and any document that decodes —
whatever its schema version — is returned as loaded. -/
theorem load_corruption_behavior :
    load .empty = .corrupt
    ∧ load .truncated = .corrupt
    ∧ load .nullBytes = .corrupt
    ∧ load .missing = .noState
    ∧ ∀ s : State, load (.wellFormed s) = .loaded s :=
  ⟨rfl, rfl, rfl, rfl, fun _ => rfl⟩

/-- C3 counterexample: a save whose very first filesystem step
(directory creation) fails returns an error and leaves the on-disk file
untouched, yet the in-memory serial has already been incremented from 5
to 6 — `s.Serial++` runs before any I/O. -/
theorem save_increments_serial_on_failure :
    (save docSerial5 diskPrior .mkdirFail).ok = false
    ∧ (save docSerial5 diskPrior .mkdirFail).disk.file = some freshDoc
    ∧ docSerial5.serial = 5
    ∧ (save docSerial5 diskPrior .mkdirFail).st.serial = 6 :=
  ⟨rfl, rfl, rfl, rfl⟩

/-- C3 amended: a failed save reports the error, leaves the on-disk
state file equal to the prior successful save, and removes any
temporary it created (the encode/close/rename failures; the earlier
mkdir/create failures create no temporary) — but the in-memory
document's serial IS incremented, since the increment precedes all
filesystem work. -/
theorem save_failure_leaves_disk_unchanged (s : State) (d : Disk)
    (o : SaveOutcome) (hfail : o ≠ .success) :
    (save s d o).ok = false
    ∧ (save s d o).disk.file = d.file
    ∧ (save s d o).st.serial = s.serial + 1
    ∧ (o = .encodeFail ∨ o = .closeFail ∨ o = .renameFail →
        (save s d o).disk.tmp = none) := by
  cases o <;> simp_all [save]

/-- Witness for C3's amended theorem at a concrete failing save. -/
theorem save_failure_leaves_disk_unchanged_witness :
    (save docSerial5 diskPrior .renameFail).ok = false
    ∧ (save docSerial5 diskPrior .renameFail).disk.file = diskPrior.file
    ∧ (save docSerial5 diskPrior .renameFail).st.serial = docSerial5.serial + 1
    ∧ (save docSerial5 diskPrior .renameFail).disk.tmp = none := by
  have h := save_failure_leaves_disk_unchanged docSerial5 diskPrior .renameFail
    (by simp)
  exact ⟨h.1, h.2.1, h.2.2.1, h.2.2.2 (Or.inr (Or.inr rfl))⟩

/-- C1: the byte stream `ComputeFingerprint` hashes is NOT independent
of the map storage/iteration order: two template records whose
variables are equal as mappings (list permutations of one another, with
duplicate-free keys) feed different streams into SHA-256, because the
code iterates the Go maps in `range` order and never sorts the keys —
despite its own "Include sorted variables" comment. -/
theorem fingerprintData_not_order_independent :
    tmplAB.vars.Perm tmplBA.vars
    ∧ (tmplAB.vars.map Prod.fst).Nodup
    ∧ fingerprintData tmplAB ≠ fingerprintData tmplBA := by
  refine ⟨List.Perm.swap _ _ _, by decide, by decide⟩

/-- C7: the wrapper consults the stub `inputsChangedSinceLastBuild`,
which always reports "unchanged"; so even when the inputs HAVE changed
at the document level (here the stored variable `v` is "1" and the run
supplies "2", which `Manager.InputsChanged` detects), `Run` still
returns the cached artifacts of the completed build instead of
rebuilding. -/
theorem runEntry_returns_cache_despite_changed_inputs :
    inputsChanged (some docDone) docDone.template.hash [("v", "2")] [] = true
    ∧ runEntry (some docDone) "b"
      = .cached [⟨"artifact-1", "null.builder", ["out/disk.img"]⟩] := by
  constructor
  · decide
  · decide

/-- C8 counterexample: with a lock held but the lock file already gone
at release time, `Unlock` does NOT succeed — `readLock`'s `os.ReadFile`
fails on the missing file and the wrapped read error is returned (the
`os.IsNotExist` tolerance guards only the later `os.Remove`). -/
theorem unlock_errors_on_missing_lock_file :
    (unlock (some lockA) .missing).err = some .readFailed
    ∧ (unlock (some lockA) .missing).err ≠ none := by
  refine ⟨rfl, ?_⟩
  simp [unlock]

/-- C8 amended: on release the holder reads the lock file back; a
differing id fails with the lock-stolen error, a matching id removes
the lock file, and a MISSING lock file makes the release fail with a
read error rather than succeed. -/
theorem unlock_release_semantics (mine cur : LockRec)
    (file : LockFileState) :
    (cur.id ≠ mine.id →
      unlock (some mine) (.holds cur) = ⟨some .stolen, .holds cur, some mine⟩)
    ∧ (cur.id = mine.id →
      unlock (some mine) (.holds cur) = ⟨none, .missing, none⟩)
    ∧ (unlock (some mine) .missing).err = some .readFailed
    ∧ unlock none file = ⟨none, file, none⟩ := by
  refine ⟨?_, ?_, rfl, rfl⟩
  · intro hne
    simp [unlock, hne]
  · intro heq
    simp [unlock, heq]

/-- Witness for C8's amended theorem: a stolen lock is reported, and a
matching id removes the lock file. -/
theorem unlock_release_semantics_witness :
    unlock (some lockA) (.holds lockB) = ⟨some .stolen, .holds lockB, some lockA⟩
    ∧ unlock (some lockA) (.holds lockA) = ⟨none, .missing, none⟩ := by
  have h1 := unlock_release_semantics lockA lockB .missing
  have h2 := unlock_release_semantics lockA lockA .missing
  exact ⟨h1.1 (by decide), h2.2.1 rfl⟩

/-- C6: `NextPendingProvisioner` returns the smallest index whose step
status is `pending` or `failed` — it is a lower bound of every such
index, the step at the returned index (when in range) has such a
status — and returns the list length when no step does; `running`,
`complete` and `skipped` steps are passed over. -/
theorem nextPendingProvisioner_first_pending_or_failed
    (ps : List ProvisionerState) :
    nextPendingProvisioner ps ≤ ps.length
    ∧ (∀ j, j < ps.length → isPendingOrFailed (ps.getD j default) = true →
        nextPendingProvisioner ps ≤ j)
    ∧ (nextPendingProvisioner ps < ps.length →
        isPendingOrFailed (ps.getD (nextPendingProvisioner ps) default) = true)
    ∧ ((∀ p ∈ ps, isPendingOrFailed p = false) →
        nextPendingProvisioner ps = ps.length) := by
  induction ps with
  | nil =>
    simp [nextPendingProvisioner]
  | cons p rest ih =>
    obtain ⟨ih1, ih2, ih3, ih4⟩ := ih
    by_cases hp : isPendingOrFailed p = true
    · simp only [nextPendingProvisioner, if_pos hp, List.length_cons]
      refine ⟨Nat.zero_le _, fun j _ _ => Nat.zero_le j, fun _ => ?_, fun hall => ?_⟩
      · simpa [List.getD_cons_zero] using hp
      · exact absurd (hall p (List.mem_cons_self p rest)) (by simp [hp])
    · have hp' : isPendingOrFailed p = false := Bool.eq_false_iff.mpr hp
      simp only [nextPendingProvisioner, if_neg hp, List.length_cons]
      refine ⟨Nat.succ_le_succ ih1, ?_, ?_, ?_⟩
      · intro j hj hc
        cases j with
        | zero =>
          rw [List.getD_cons_zero] at hc
          exact absurd hc hp
        | succ j' =>
          rw [List.getD_cons_succ] at hc
          exact Nat.succ_le_succ (ih2 j' (Nat.lt_of_succ_lt_succ hj) hc)
      · intro hlt
        rw [List.getD_cons_succ]
        exact ih3 (Nat.lt_of_succ_lt_succ hlt)
      · intro hall
        rw [ih4 (fun q hq => hall q (List.mem_cons_of_mem p hq))]

/-- Witness for C6 at a concrete step list (complete, failed, pending):
index 1 carries a failed status, so the next pending step is at most 1. -/
theorem nextPendingProvisioner_first_pending_or_failed_witness :
    nextPendingProvisioner stepsCFP ≤ 1 := by
  have h := nextPendingProvisioner_first_pending_or_failed stepsCFP
  exact h.2.1 1 (by decide) (by decide)

/-- C5 counterexample: the stored variables map `{a ↦ ""}` compared
against the input map `{b ↦ ""}` — the key has changed, and key `b` is
absent from the stored map — yet `InputsChanged` reports NO change:
the Go read `stored["b"]` yields the zero value `""`, which equals the
present empty-string value, so absence is indistinguishable from a
present empty string. -/
theorem inputsChanged_misses_empty_value_key_swap :
    lookupKV docEmptyVal.template.vars "b" = none
    ∧ docEmptyVal.template.vars = [("a", "")]
    ∧ inputsChanged (some docEmptyVal) docEmptyVal.template.hash
        [("b", "")] [] = false := by
  refine ⟨rfl, rfl, by decide⟩

/-- C5 amended: with the loaded TemplateRecord equal to the inputs
(hash equal, variables and files equal as mappings, i.e. permutations
with duplicate-free keys), `InputsChanged` returns false; changing the
hash, the cardinality of either mapping, or any looked-up value flips
it to true — where a value change is any input entry whose key reads
back a different value from the stored map, with an absent stored key
reading as the Go zero value `""`.  (Hence replacing an empty-valued
key by another empty-valued key is NOT detected; absence is equated
with the empty string, contrary to the claim.) -/
theorem inputsChanged_change_detection (s : State) (th : String)
    (V F : List (String × String)) :
    ((s.template.vars.map Prod.fst).Nodup →
      (s.template.files.map Prod.fst).Nodup →
      V.Perm s.template.vars → F.Perm s.template.files →
      inputsChanged (some s) s.template.hash V F = false)
    ∧ (th ≠ s.template.hash → inputsChanged (some s) th V F = true)
    ∧ (V.length ≠ s.template.vars.length →
        inputsChanged (some s) th V F = true)
    ∧ (∀ k v, (k, v) ∈ V → goFind s.template.vars k ≠ v →
        inputsChanged (some s) th V F = true)
    ∧ (F.length ≠ s.template.files.length →
        inputsChanged (some s) th V F = true)
    ∧ (∀ k v, (k, v) ∈ F → goFind s.template.files k ≠ v →
        inputsChanged (some s) th V F = true) := by
  refine ⟨?_, ?_, ?_, ?_, ?_, ?_⟩
  · intro ndV ndF hV hF
    have hlenV : s.template.vars.length = V.length := hV.length_eq.symm
    have hlenF : s.template.files.length = F.length := hF.length_eq.symm
    have hmV : anyMismatch s.template.vars V = false := by
      refine anyMismatch_eq_false ?_
      intro kv hkv
      obtain ⟨a, b⟩ := kv
      exact goFind_eq_of_mem ndV (hV.mem_iff.mp hkv)
    have hmF : anyMismatch s.template.files F = false := by
      refine anyMismatch_eq_false ?_
      intro kv hkv
      obtain ⟨a, b⟩ := kv
      exact goFind_eq_of_mem ndF (hF.mem_iff.mp hkv)
    simp [inputsChanged, hlenV, hlenF, hmV, hmF]
  · intro hne
    have hb : (s.template.hash != th) = true := by
      simp [bne_iff_ne]
      exact fun h => hne h.symm
    simp [inputsChanged, hb]
  · intro hlen
    have hb : (s.template.vars.length != V.length) = true := by
      simp [bne_iff_ne]
      omega
    simp [inputsChanged, hb]
  · intro k v hkv hne
    have hb := anyMismatch_eq_true hkv hne
    simp [inputsChanged, hb]
  · intro hlen
    have hb : (s.template.files.length != F.length) = true := by
      simp [bne_iff_ne]
      omega
    simp [inputsChanged, hb]
  · intro k v hkv hne
    have hb := anyMismatch_eq_true hkv hne
    simp [inputsChanged, hb]

/-- Witness for C5's amended theorem: a document whose stored variables
equal the supplied ones reports no change. -/
theorem inputsChanged_change_detection_witness :
    inputsChanged (some docDone) docDone.template.hash [("v", "1")] [] = false := by
  have h := inputsChanged_change_detection docDone docDone.template.hash
    [("v", "1")] []
  exact h.1 (by decide) (by decide) (List.Perm.refl _) (List.Perm.refl _)

end PackerState
